import Mathlib

/-!
Verification of the DCP expression layer
(`src/cvxpy/expressions/expression.py`).

The file embeds the `Expression` class of the source: the derived
classification methods (`is_constant`, `is_affine`, `is_dcp`, `is_zero`,
`curvature`, `sign`, `is_scalar`), the `T` transpose property, and the
operator overloads (`__add__`, `__sub__`, `__rsub__`, `__mul__`, `__div__`,
`__neg__`, `__le__`, `__lt__`, `__ge__`, `__gt__`) together with the
`_cast_other` casting decorator.

Concrete node classes (constants, variables, atoms such as `add_expr`,
`mul_expr`, `div_expr`, `neg_expr`, `transpose`) live outside this file in
the repository; their primitive classifications (`is_convex`, `is_concave`,
`is_positive`, `is_negative`, shapes) are modelled from the spec where a
claim needs them, as marked in the doc comments below.
-/

namespace Cvxpy

/-- The curvature labels of `cvxpy.settings` used by `Expression.curvature`. -/
inductive Curvature where
  | CONSTANT
  | AFFINE
  | CONVEX
  | CONCAVE
  | UNKNOWN
deriving DecidableEq

/-- The sign labels of `cvxpy.settings` used by `Expression.sign`. -/
inductive Sign where
  | ZERO
  | POSITIVE
  | NEGATIVE
  | UNKNOWN
deriving DecidableEq

/-- Primitive classifications supplied by an arbitrary concrete `Expression`
subclass (variable, atom, ...): whether `variables()` is nonempty, the
abstract `is_convex` / `is_concave` / `is_positive` / `is_negative`
answers, and the `size` pair. -/
structure LeafData where
  hasVars : Bool
  convex : Bool
  concave : Bool
  positive : Bool
  negative : Bool
  rows : Nat
  cols : Nat
deriving DecidableEq

/-- Data carried by a `types.constant()` instance: its `size`, the sign of
its numeric value, and the `is_1D_array` flag set when the wrapped raw
value is a flattened one-dimensional array. -/
structure ConstData where
  rows : Nat
  cols : Nat
  positive : Bool
  negative : Bool
  is1D : Bool
deriving DecidableEq

/-- Expression nodes: abstract leaves, `types.constant()` instances, and the
composite nodes built by the operator overloads in the source file
(`types.add_expr`, `types.mul_expr`, `types.rmul_expr`, `types.div_expr`,
`types.neg_expr`, `types.transpose`). -/
inductive Expr where
  | leaf (d : LeafData)
  | constant (d : ConstData)
  | addExpr (l r : Expr)
  | mulExpr (l r : Expr)
  | rmulExpr (l r : Expr)
  | divExpr (l r : Expr)
  | negExpr (a : Expr)
  | transposeExpr (a : Expr)
deriving DecidableEq

/-- Node dimensions. Leaves and constants carry their own size. Modelled
from the spec for the composite classes (outside this file): addition and
elementwise division keep the broadcast shape, a product takes the rows of
the left and the columns of the right factor, negation keeps the shape, and
transpose swaps it. -/
def size : Expr → Nat × Nat
  | .leaf d => (d.rows, d.cols)
  | .constant d => (d.rows, d.cols)
  | .addExpr l r => (max (size l).1 (size r).1, max (size l).2 (size r).2)
  | .mulExpr l r => ((size l).1, (size r).2)
  | .rmulExpr l r => ((size l).1, (size r).2)
  | .divExpr l _ => size l
  | .negExpr a => size a
  | .transposeExpr a => ((size a).2, (size a).1)

/-- `Expression.is_scalar`: `self.size == (1, 1)`. -/
def is_scalar (e : Expr) : Bool :=
  (size e).1 == 1 && (size e).2 == 1

/-- Whether `self.variables()` is nonempty. A constant node has no
variables; a composite node's variable list is the union of its
children's, hence nonempty iff some child's is. -/
def hasVars : Expr → Bool
  | .leaf d => d.hasVars
  | .constant _ => false
  | .addExpr l r => hasVars l || hasVars r
  | .mulExpr l r => hasVars l || hasVars r
  | .rmulExpr l r => hasVars l || hasVars r
  | .divExpr l r => hasVars l || hasVars r
  | .negExpr a => hasVars a
  | .transposeExpr a => hasVars a

/-- Sign combination for a product or quotient node, modelled from the
spec's sign lattice: the product of two like-signed operands is
nonnegative, of two unlike-signed operands nonpositive, and anything
multiplied by a zero operand (positive and negative at once) is zero. -/
def mulSign : Bool × Bool → Bool × Bool → Bool × Bool
  | (lp, ln), (rp, rn) =>
      ((lp && rp) || (ln && rn) || (lp && ln) || (rp && rn),
       (lp && rn) || (ln && rp) || (lp && ln) || (rp && rn))

/-- The pair `(is_positive, is_negative)` of a node. Leaves and constants
answer from their own data. Modelled from the spec for the composite
classes: a sum is positive (negative) when all terms are, negation flips
the pair, products and quotients follow `mulSign`, and transpose leaves
the sign unchanged. -/
def signPair : Expr → Bool × Bool
  | .leaf d => (d.positive, d.negative)
  | .constant d => (d.positive, d.negative)
  | .addExpr l r => ((signPair l).1 && (signPair r).1, (signPair l).2 && (signPair r).2)
  | .mulExpr l r => mulSign (signPair l) (signPair r)
  | .rmulExpr l r => mulSign (signPair l) (signPair r)
  | .divExpr l r => mulSign (signPair l) (signPair r)
  | .negExpr a => ((signPair a).2, (signPair a).1)
  | .transposeExpr a => signPair a

/-- `Expression.is_positive` (abstract in the source; dispatched to the
node's class). -/
def is_positive (e : Expr) : Bool := (signPair e).1

/-- `Expression.is_negative` (abstract in the source; dispatched to the
node's class). -/
def is_negative (e : Expr) : Bool := (signPair e).2

/-- `Expression.is_zero`: `self.is_positive() and self.is_negative()`. -/
def is_zero (e : Expr) : Bool := is_positive e && is_negative e

/-- `Expression.is_constant`: `len(self.variables()) == 0 or self.is_zero()`. -/
def is_constant (e : Expr) : Bool := !hasVars e || is_zero e

/-- The pair `(is_convex, is_concave)` of a node. Leaves answer from their
own data; a `types.constant()` node is both (its curvature is fixed as
CONSTANT). Modelled from the spec for the composite classes, which are
outside this file: a node that classifies as constant is affine, hence
reports both convex and concave (spec 4.1 edge case and spec 8); otherwise
a sum combines like curvatures, negation swaps them, a product or quotient
scales the non-constant side's curvature by the sign of its constant
coefficient (left factor of `mul_expr`, right factor of `rmul_expr` and of
`div_expr`), and transpose leaves curvature unchanged. -/
def curvPair : Expr → Bool × Bool
  | .leaf d => (d.convex, d.concave)
  | .constant _ => (true, true)
  | .addExpr l r =>
      (is_constant (.addExpr l r) || ((curvPair l).1 && (curvPair r).1),
       is_constant (.addExpr l r) || ((curvPair l).2 && (curvPair r).2))
  | .mulExpr l r =>
      (is_constant (.mulExpr l r) || (is_positive l && (curvPair r).1) ||
        (is_negative l && (curvPair r).2),
       is_constant (.mulExpr l r) || (is_positive l && (curvPair r).2) ||
        (is_negative l && (curvPair r).1))
  | .rmulExpr l r =>
      (is_constant (.rmulExpr l r) || (is_positive r && (curvPair l).1) ||
        (is_negative r && (curvPair l).2),
       is_constant (.rmulExpr l r) || (is_positive r && (curvPair l).2) ||
        (is_negative r && (curvPair l).1))
  | .divExpr l r =>
      (is_constant (.divExpr l r) || (is_positive r && (curvPair l).1) ||
        (is_negative r && (curvPair l).2),
       is_constant (.divExpr l r) || (is_positive r && (curvPair l).2) ||
        (is_negative r && (curvPair l).1))
  | .negExpr a =>
      (is_constant (.negExpr a) || (curvPair a).2,
       is_constant (.negExpr a) || (curvPair a).1)
  | .transposeExpr a =>
      (is_constant (.transposeExpr a) || (curvPair a).1,
       is_constant (.transposeExpr a) || (curvPair a).2)

/-- `Expression.is_convex` (abstract in the source; dispatched to the
node's class). -/
def is_convex (e : Expr) : Bool := (curvPair e).1

/-- `Expression.is_concave` (abstract in the source; dispatched to the
node's class). -/
def is_concave (e : Expr) : Bool := (curvPair e).2

/-- `Expression.is_affine`: `self.is_constant() or (self.is_convex() and
self.is_concave())`. -/
def is_affine (e : Expr) : Bool := is_constant e || (is_convex e && is_concave e)

/-- `Expression.is_dcp`: `self.is_convex() or self.is_concave()`. -/
def is_dcp (e : Expr) : Bool := is_convex e || is_concave e

/-- The `Expression.curvature` property: the if/elif chain over
`is_constant`, `is_affine`, `is_convex`, `is_concave`. -/
def curvature (e : Expr) : Curvature :=
  if is_constant e then .CONSTANT
  else if is_affine e then .AFFINE
  else if is_convex e then .CONVEX
  else if is_concave e then .CONCAVE
  else .UNKNOWN

/-- The `Expression.sign` property: the if/elif chain over `is_zero`,
`is_positive`, `is_negative`. -/
def sign (e : Expr) : Sign :=
  if is_zero e then .ZERO
  else if is_positive e then .POSITIVE
  else if is_negative e then .NEGATIVE
  else .UNKNOWN

/-- The right-hand operand of a binary operator before `_cast_other` runs:
either an `Expression` already, or a raw numeric value (whose wrapped
constant carries the data `v`). -/
inductive Operand where
  | expr (e : Expr)
  | num (v : ConstData)
deriving DecidableEq

/-- `Expression.cast_to_const`: return expressions unchanged, wrap raw
numeric values into a `types.constant()` node. -/
def cast_to_const : Operand → Expr
  | .expr e => e
  | .num v => .constant v

/-- The `Expression.T` property: the transpose of a scalar is that scalar
itself; otherwise a `types.transpose()` node is built. -/
def Expr.T (e : Expr) : Expr :=
  if is_scalar e then e else .transposeExpr e

/-- The error raised by the source through `raise DCPError(...)`. -/
structure DCPError where
  msg : String
deriving DecidableEq

/-- `isinstance(self, types.constant()) and self.is_1D_array`: whether the
node is a constant wrapping a flattened one-dimensional raw array. -/
def is_1D_array_constant : Expr → Bool
  | .constant d => d.is1D
  | _ => false

/-- The guard of the 1-D workaround inside `__mul__`:
`self.size[0] == other.size[0] and self.size[1] != self.size[0] and
isinstance(self, types.constant()) and self.is_1D_array`. -/
def oneDHack (self other : Expr) : Bool :=
  (size self).1 == (size other).1 && (size self).2 != (size self).1 &&
    is_1D_array_constant self

/-- `Expression.__mul__` (with `_cast_other` applied to the right operand):
raise on two non-constants; with a constant left operand apply the 1-D
transpose workaround and build `mul_expr(self, other)`; otherwise move the
constant right operand to the left when either operand is scalar, else
build `rmul_expr(self, other)`. -/
def mul (self : Expr) (other : Operand) : Except DCPError Expr :=
  let o := cast_to_const other
  if !is_constant self && !is_constant o then
    .error ⟨"Cannot multiply two non-constants."⟩
  else if is_constant self then
    let s := if oneDHack self o then Expr.T self else self
    .ok (.mulExpr s o)
  else if is_scalar self || is_scalar o then
    .ok (.mulExpr o self)
  else
    .ok (.rmulExpr self o)

/-- `Expression.__div__` (with `_cast_other`): build `div_expr(self, other)`
only when the divisor is a scalar constant, else raise. -/
def div (self : Expr) (other : Operand) : Except DCPError Expr :=
  let o := cast_to_const other
  if is_constant o && is_scalar o then
    .ok (.divExpr self o)
  else
    .error ⟨"Can only divide by a scalar constant."⟩

/-- `Expression.__add__` (with `_cast_other`): build an addition node over
the two operands. -/
def add (self : Expr) (other : Operand) : Expr :=
  .addExpr self (cast_to_const other)

/-- `Expression.__neg__`: build `neg_expr(self)`. -/
def neg (self : Expr) : Expr :=
  .negExpr self

/-- `Expression.__sub__` (with `_cast_other`): `self + -other`. -/
def sub (self : Expr) (other : Operand) : Expr :=
  add self (.expr (neg (cast_to_const other)))

/-- `Expression.__rsub__` (with `_cast_other`), called for
`Number - Expression`: `other - self`. -/
def rsub (self : Expr) (other : Operand) : Expr :=
  sub (cast_to_const other) (.expr self)

/-- Constraints built by the comparison operators: `EqConstraint`,
`LeqConstraint`, `PSDConstraint`. -/
inductive Constraint where
  | eqC (l r : Expr)
  | leqC (l r : Expr)
  | psdC (l r : Expr)
deriving DecidableEq

/-- `Expression.__le__` (with `_cast_other`): `LeqConstraint(self, other)`. -/
def le_cmp (self : Expr) (other : Operand) : Constraint :=
  .leqC self (cast_to_const other)

/-- `Expression.__lt__`: `self <= other`. -/
def lt_cmp (self : Expr) (other : Operand) : Constraint :=
  le_cmp self other

/-- `Expression.__ge__` (with `_cast_other`): `other.__le__(self)`. -/
def ge_cmp (self : Expr) (other : Operand) : Constraint :=
  le_cmp (cast_to_const other) (.expr self)

/-- `Expression.__gt__`: `self >= other`. -/
def gt_cmp (self : Expr) (other : Operand) : Constraint :=
  ge_cmp self other

/-- First-predicate-wins selection over a priority list of labelled
predicates, defaulting to UNKNOWN: the wording of the spec's curvature
derivation rule. -/
def firstLabel : List (Bool × Curvature) → Curvature
  | [] => .UNKNOWN
  | (b, c) :: rest => if b then c else firstLabel rest

/-- The spec's wording of the curvature rule: the label of the first
predicate among `is_constant`, `is_affine`, `is_convex`, `is_concave`
that holds, and UNKNOWN when none holds. -/
def curvatureSpec (n : Expr) : Curvature :=
  firstLabel
    [(is_constant n, .CONSTANT), (is_affine n, .AFFINE),
     (is_convex n, .CONVEX), (is_concave n, .CONCAVE)]

/-- The spec's wording of the sign rule: ZERO when positive and negative
both hold, else POSITIVE, else NEGATIVE, else UNKNOWN. -/
def signSpec (n : Expr) : Sign :=
  if is_positive n && is_negative n then .ZERO
  else if is_positive n then .POSITIVE
  else if is_negative n then .NEGATIVE
  else .UNKNOWN

/-- Modelled from the spec: the concrete leaf classes of the repository
(variables, parameters, atoms over constant data) are outside this file;
per the spec a node with no free variables, or identically zero, is affine,
so a conformant leaf that classifies as constant reports both convex and
concave. -/
def leafConformant (d : LeafData) : Bool :=
  !(!d.hasVars || (d.positive && d.negative)) || (d.convex && d.concave)

/-- A node all of whose leaves are conformant in the sense of
`leafConformant`. -/
def conformant : Expr → Bool
  | .leaf d => leafConformant d
  | .constant _ => true
  | .addExpr l r => conformant l && conformant r
  | .mulExpr l r => conformant l && conformant r
  | .rmulExpr l r => conformant l && conformant r
  | .divExpr l r => conformant l && conformant r
  | .negExpr a => conformant a
  | .transposeExpr a => conformant a

/-- A scalar variable node: one free variable, affine, sign unknown. -/
def scalarVarX : Expr := .leaf ⟨true, true, true, false, false, 1, 1⟩

/-- A second scalar variable node with a definite (positive) sign. -/
def scalarVarY : Expr := .leaf ⟨true, true, true, true, false, 1, 1⟩

/-- A 3-by-1 variable node. -/
def colVarZ : Expr := .leaf ⟨true, true, true, false, false, 3, 1⟩

/-- A 2-by-2 constant node (not a flattened 1-D array). -/
def squareConstC : Expr := .constant ⟨2, 2, true, false, false⟩

/-- A positive scalar constant node. -/
def scalarConstK : Expr := .constant ⟨1, 1, true, false, false⟩

/-- A 3-by-1 constant wrapping a flattened 1-D raw array. -/
def flatConstF : Expr := .constant ⟨3, 1, true, false, true⟩

/-- A 2-by-3 constant node (not 1-D). -/
def rectConstR : Expr := .constant ⟨2, 3, true, false, false⟩

end Cvxpy

namespace Cvxpy

/-- Claim C1: whenever neither operand of a product is constant, `__mul__`
raises a DCPError and returns no node. -/
theorem C1_mul_two_nonconstants_errors (a b : Expr)
    (ha : is_constant a = false) (hb : is_constant b = false) :
    mul a (.expr b) = .error ⟨"Cannot multiply two non-constants."⟩ := by
  simp [mul, cast_to_const, ha, hb]

/-- Witness for C1 at two concrete scalar variable nodes. -/
theorem C1_witness :
    is_constant scalarVarX = false ∧ is_constant scalarVarY = false ∧
      mul scalarVarX (.expr scalarVarY) =
        .error ⟨"Cannot multiply two non-constants."⟩ :=
  ⟨by decide, by decide,
    C1_mul_two_nonconstants_errors scalarVarX scalarVarY (by decide) (by decide)⟩

/-- Claim C2: the `curvature` property is derived by first-predicate-wins
over the priority list CONSTANT, AFFINE, CONVEX, CONCAVE, with UNKNOWN
when none of the predicates holds. -/
theorem C2_curvature_priority_order (n : Expr) :
    curvature n = curvatureSpec n := by
  simp only [curvature, curvatureSpec, firstLabel]

/-- Claim C6: `sign` is ZERO exactly when `is_positive` and `is_negative`
both hold, and otherwise POSITIVE, NEGATIVE, UNKNOWN by the single
predicate that holds first. -/
theorem C6_sign_characterization (n : Expr) :
    sign n = signSpec n ∧
      (sign n = .ZERO ↔ (is_positive n = true ∧ is_negative n = true)) := by
  constructor
  · simp only [sign, signSpec, is_zero]
  · cases hp : is_positive n <;> cases hn : is_negative n <;>
      simp [sign, is_zero, hp, hn]

/-- Claim C9: `__ge__` builds the reflected `__le__` constraint on the cast
right operand, and the strict comparisons are aliases of the non-strict
ones. -/
theorem C9_comparison_reflection_aliases (a : Expr) (b : Operand) :
    ge_cmp a b = .leqC (cast_to_const b) a ∧
      gt_cmp a b = ge_cmp a b ∧ lt_cmp a b = le_cmp a b :=
  ⟨rfl, rfl, rfl⟩

/-- Claim C10: `a - b` builds exactly the addition of `a` and the negation
of the cast right operand, `Number - Expression` delegates to
`cast_to_const(Number) - Expression`, and consequently the curvature and
sign of a difference coincide with those of the equivalent
add-of-negation. -/
theorem C10_sub_is_add_of_negation (a : Expr) (b : Operand) :
    sub a b = .addExpr a (.negExpr (cast_to_const b)) ∧
      (∀ v : ConstData, rsub a (.num v) = sub (.constant v) (.expr a)) ∧
      curvature (sub a b) = curvature (add a (.expr (neg (cast_to_const b)))) ∧
      sign (sub a b) = sign (add a (.expr (neg (cast_to_const b)))) :=
  ⟨rfl, fun _ => rfl, rfl, rfl⟩

/-- Counterexample to claim C3 as stated: with a constant 2-by-2 left
operand and a non-constant scalar right operand, exactly one operand is
scalar, yet `__mul__` builds `mul_expr(self, other)` with the scalar on
the right, not on the left. -/
theorem C3_counterexample :
    is_scalar squareConstC = false ∧ is_scalar scalarVarX = true ∧
      mul squareConstC (.expr scalarVarX) =
        .ok (.mulExpr squareConstC scalarVarX) :=
  ⟨rfl, rfl, rfl⟩

/-- Claim C3 as amended: the canonical reordering lives in the branch where
the left operand is non-constant (and the right operand therefore
constant); there, whenever either operand is scalar, the constant right
operand is moved to the left (coefficient) position of the built
`mul_expr` node. When the left operand is constant, operand order is kept. -/
theorem C3_amended_constant_moved_left (a b : Expr)
    (ha : is_constant a = false) (hb : is_constant b = true)
    (hs : is_scalar a = true ∨ is_scalar b = true) :
    mul a (.expr b) = .ok (.mulExpr b a) := by
  rcases hs with hs | hs <;> simp [mul, cast_to_const, ha, hb, hs]

/-- Witness for the amended C3 at a 3-by-1 variable times a positive scalar
constant. -/
theorem C3_amended_witness :
    mul colVarZ (.expr scalarConstK) = .ok (.mulExpr scalarConstK colVarZ) :=
  C3_amended_constant_moved_left colVarZ scalarConstK (by decide) (by decide)
    (Or.inr (by decide))

/-- Claim C4: in the constant-left branch of `__mul__`, exactly when the
left operand's row count equals the right operand's row count, the left
operand's shape is not square, and the left operand is a constant wrapping
a flattened 1-D array, the left operand is silently replaced by its
transpose before building the node; in every other constant-left case it
is used unchanged. -/
theorem C4_oneD_array_transpose_hack (a b : Expr)
    (hc : is_constant a = true) :
    (oneDHack a b = true →
        mul a (.expr b) = .ok (.mulExpr (Expr.T a) b)) ∧
      (oneDHack a b = false →
        mul a (.expr b) = .ok (.mulExpr a b)) := by
  constructor <;> intro hh <;> simp [mul, cast_to_const, hc, hh]

/-- Witness for C4: the hack fires on a 3-by-1 flattened-array constant
against a 3-by-1 variable, and does not fire on a 2-by-2 constant against
a scalar variable. -/
theorem C4_witness :
    mul flatConstF (.expr colVarZ) =
        .ok (.mulExpr (Expr.T flatConstF) colVarZ) ∧
      mul squareConstC (.expr scalarVarY) =
        .ok (.mulExpr squareConstC scalarVarY) :=
  ⟨(C4_oneD_array_transpose_hack flatConstF colVarZ (by decide)).1 (by decide),
   (C4_oneD_array_transpose_hack squareConstC scalarVarY (by decide)).2
     (by decide)⟩

/-- Claim C5: `__div__` builds a division node exactly when the cast right
operand is a scalar constant; otherwise it raises a DCPError and builds no
node. -/
theorem C5_div_only_by_scalar_constant (a : Expr) (b : Operand) :
    ((is_constant (cast_to_const b) && is_scalar (cast_to_const b)) = true →
        div a b = .ok (.divExpr a (cast_to_const b))) ∧
      ((is_constant (cast_to_const b) && is_scalar (cast_to_const b)) = false →
        div a b = .error ⟨"Can only divide by a scalar constant."⟩) := by
  constructor <;> intro hh <;> simp [div, hh]

/-- Witness for C5: dividing a variable by a positive scalar constant
succeeds; dividing by a non-scalar constant raises. -/
theorem C5_witness :
    div scalarVarX (.expr scalarConstK) =
        .ok (.divExpr scalarVarX scalarConstK) ∧
      div scalarVarX (.expr rectConstR) =
        .error ⟨"Can only divide by a scalar constant."⟩ :=
  ⟨(C5_div_only_by_scalar_constant scalarVarX (.expr scalarConstK)).1
      (by decide),
   (C5_div_only_by_scalar_constant scalarVarX (.expr rectConstR)).2
      (by decide)⟩

theorem is_constant_transposeExpr (x : Expr) :
    is_constant (.transposeExpr x) = is_constant x := rfl

theorem sign_transposeExpr (x : Expr) :
    sign (.transposeExpr x) = sign x := rfl

theorem curvature_transposeExpr (x : Expr) :
    curvature (.transposeExpr x) = curvature x := by
  cases hc : is_constant x with
  | true => simp [curvature, is_constant_transposeExpr, hc]
  | false =>
      simp [curvature, is_affine, is_dcp, is_convex, is_concave, curvPair,
        is_constant_transposeExpr, hc]

/-- Claim C7: a node that classifies as constant has CONSTANT curvature and
is DCP-compliant, provided its leaves satisfy the spec's contract that a
constant concrete node reports itself convex and concave. -/
theorem C7_constant_curvature_and_dcp (n : Expr)
    (hw : conformant n = true) (hc : is_constant n = true) :
    curvature n = Curvature.CONSTANT ∧ is_dcp n = true := by
  refine ⟨by simp [curvature, hc], ?_⟩
  cases n with
  | leaf d =>
      obtain ⟨hv, cx, cc, p, ng, r, c⟩ := d
      simp [conformant, leafConformant] at hw
      simp [is_constant, hasVars, is_zero, is_positive, is_negative,
        signPair] at hc
      simp [is_dcp, is_convex, is_concave, curvPair]
      cases hv <;> cases p <;> cases ng <;> cases cx <;> cases cc <;> simp_all
  | constant d => simp [is_dcp, is_convex, curvPair]
  | addExpr l r => simp [is_dcp, is_convex, curvPair, hc]
  | mulExpr l r => simp [is_dcp, is_convex, curvPair, hc]
  | rmulExpr l r => simp [is_dcp, is_convex, curvPair, hc]
  | divExpr l r => simp [is_dcp, is_convex, curvPair, hc]
  | negExpr a => simp [is_dcp, is_convex, curvPair, hc]
  | transposeExpr a => simp [is_dcp, is_convex, curvPair, hc]

/-- Witness for C7 at a concrete constant node. -/
theorem C7_witness :
    curvature squareConstC = Curvature.CONSTANT ∧ is_dcp squareConstC = true :=
  C7_constant_curvature_and_dcp squareConstC (by decide) (by decide)

/-- Claim C8: transposing a scalar returns the node itself, and for a
square or scalar node the double transpose has the same dimensions,
curvature, and sign as the original. -/
theorem C8_transpose_scalar_identity_involution (a : Expr) :
    (is_scalar a = true → Expr.T a = a) ∧
      ((size a).1 = (size a).2 ∨ is_scalar a = true →
        size (Expr.T (Expr.T a)) = size a ∧
          curvature (Expr.T (Expr.T a)) = curvature a ∧
          sign (Expr.T (Expr.T a)) = sign a) := by
  constructor
  · intro hs
    simp [Expr.T, hs]
  · intro _
    by_cases hs : is_scalar a = true
    · simp [Expr.T, hs]
    · have hs' : is_scalar a = false := by simpa using hs
      have hs2 : ¬((size a).1 = 1 ∧ (size a).2 = 1) := by
        intro h
        exact hs (by simp [is_scalar, h.1, h.2])
      have hTa : Expr.T a = .transposeExpr a := by
        simp [Expr.T, hs']
      have hts : is_scalar (Expr.transposeExpr a) = false := by
        by_cases h1 : (size a).1 = 1
        · by_cases h2 : (size a).2 = 1
          · exact absurd ⟨h1, h2⟩ hs2
          · simp [is_scalar, size, h2]
        · simp [is_scalar, size, h1]
      have hTT : Expr.T (Expr.T a) = .transposeExpr (.transposeExpr a) := by
        rw [hTa]
        simp [Expr.T, hts]
      rw [hTT]
      refine ⟨rfl, ?_, ?_⟩
      · rw [curvature_transposeExpr, curvature_transposeExpr]
      · rw [sign_transposeExpr, sign_transposeExpr]

/-- Witness for C8: transposing a scalar variable gives back the node, and
the double transpose of a square constant keeps size, curvature, sign. -/
theorem C8_witness :
    Expr.T scalarVarX = scalarVarX ∧
      size (Expr.T (Expr.T squareConstC)) = size squareConstC ∧
      curvature (Expr.T (Expr.T squareConstC)) = curvature squareConstC ∧
      sign (Expr.T (Expr.T squareConstC)) = sign squareConstC :=
  ⟨(C8_transpose_scalar_identity_involution scalarVarX).1 (by decide),
   ((C8_transpose_scalar_identity_involution squareConstC).2
      (Or.inl (by decide))).1,
   ((C8_transpose_scalar_identity_involution squareConstC).2
      (Or.inl (by decide))).2.1,
   ((C8_transpose_scalar_identity_involution squareConstC).2
      (Or.inl (by decide))).2.2⟩

end Cvxpy
